import Mathlib

/-!
Verification of the core pipeline of handy-deepspeech (`src/application.rs`,
function `ExampleApplication::main`): model-directory scan, audio decode
preconditions, sample-rate conversion and transcript output.

The embedding models the pipeline over explicit inputs: the directory
enumeration, the decoded audio stream and the external recognition engine are
passed in as data, while the control flow, the extension classification, the
last-match-wins scan, the channel-count assertion, the passthrough-vs-resample
branch and the printed lines follow the source line by line.  A run that
panics (`expect` / `unwrap` / `assert_eq!` in the source) is modelled as
`Except.error` carrying the panic message; a run that reaches the final
`println!` is `Except.ok` carrying the list of lines printed to stdout (exit
code 0).
-/

namespace HandyDeepspeech

/-- The constant `SAMPLE_RATE: u32 = 16_000` from `main` (line 177): the rate
the recognition model was trained on. -/
def SAMPLE_RATE : Nat := 16000

/-- One readable entry of the model directory, as observed by the scan loop:
its full path (`f.path()`), whether it is a regular file (`file_path.is_file()`)
and its extension (`file_path.extension()`, `none` when the path has no
extension). -/
structure DirEntry where
  path : String
  isFile : Bool
  ext : Option String
deriving Repr, DecidableEq

/-- The running selection state of the directory scan: `graph_name` and
`scorer_name` from lines 183-184 of the source. -/
structure ModelSelection where
  graph_name : String
  scorer_name : Option String
deriving Repr, DecidableEq

/-- Path join `dir_path.join(name)` for a file name, modelling
`std::path::Path::join` on a relative file name. -/
def pathJoin (dir name : String) : String := dir ++ "/" ++ name

/-- The acoustic-model extension test of line 194:
`ext == "pb" || ext == "pbmm" || ext == "tflite"`. -/
def isModelExt (ext : String) : Bool :=
  ext = "pb" || ext = "pbmm" || ext = "tflite"

/-- One iteration of the scan loop (lines 190-201).  An `Err` entry of
`read_dir` is `none` and is skipped (`if let Ok(f) = file`); a non-file or an
extensionless path is skipped; a model-extension file overwrites `graph_name`;
a `.scorer` file overwrites `scorer_name`. -/
def scanStep (sel : ModelSelection) (entry : Option DirEntry) : ModelSelection :=
  match entry with
  | none => sel
  | some f =>
    if f.isFile then
      match f.ext with
      | some ext =>
        if isModelExt ext then { sel with graph_name := f.path }
        else if ext = "scorer" then { sel with scorer_name := some f.path }
        else sel
      | none => sel
    else sel

/-- The whole scan of lines 183-202: start from the fallback
`dir_path.join("output_graph.pb")` with no scorer, and fold the loop body over
the enumerated entries in order. -/
def locateModel (dirPath : String) (entries : List (Option DirEntry)) :
    ModelSelection :=
  entries.foldl scanStep ⟨pathJoin dirPath ("output_graph.pb"), none⟩

/-- The path of an entry when it is a regular file with an acoustic-model
extension (`pb` / `pbmm` / `tflite`), `none` otherwise. -/
def modelCandidate (entry : Option DirEntry) : Option String :=
  match entry with
  | none => none
  | some f =>
    if f.isFile then
      match f.ext with
      | some ext => if isModelExt ext then some f.path else none
      | none => none
    else none

/-- The path of an entry when it is a regular file with extension `scorer`,
`none` otherwise. -/
def scorerCandidate (entry : Option DirEntry) : Option String :=
  match entry with
  | none => none
  | some f =>
    if f.isFile then
      match f.ext with
      | some ext => if isModelExt ext then none
        else if ext = "scorer" then some f.path else none
      | none => none
    else none

/-- Modelled from the spec: the linear-interpolation resampling performed by
the external collaborators `dasp_signal::interpolate::Converter` and
`dasp_interpolate::linear::Linear` (lines 224-231 call into these crates; the
interpolation algorithm itself is not part of this repository's source).
Following the spec, the sample sequence is treated as a signal sampled at
`source_rate`, linearly interpolated, and resampled at the evenly spaced
instants of `target_rate` that span the original duration
(`length / source_rate` seconds): output instant `k / target_rate` falls at
input position `k * source_rate / target_rate`, and the output value weights
the two bracketing input samples by the fractional distance, truncated to the
integer sample type.  Samples are 16-bit signed integers carried as `Int`. -/
def linearResample (samples : List Int) (source_rate target_rate : Nat) :
    List Int :=
  let n := samples.length
  let outLen := (n * target_rate + source_rate - 1) / source_rate
  (List.range outLen).map (fun k =>
    let pos := k * source_rate
    let i := pos / target_rate
    let w := pos % target_rate
    let a := samples.getD i 0
    let b := samples.getD (min (i + 1) (n - 1)) 0
    a + Int.tdiv ((b - a) * Int.ofNat w) (Int.ofNat target_rate))

/-- The resampling stage of `main` (lines 220-232): when the declared source
rate equals `SAMPLE_RATE` the decoded samples are collected unchanged
(`reader.samples().map(|s| s.unwrap()).collect()`); otherwise the buffer is
converted by linear interpolation to the target rate. -/
def resample (samples : List Int) (source_rate target_rate : Nat) : List Int :=
  if source_rate = target_rate then samples
  else linearResample samples source_rate target_rate

/-- Stream description read from the audio container (line 212):
`desc.channel_count()` and `desc.sample_rate()`. -/
structure AudioDesc where
  channel_count : Nat
  sample_rate : Nat
deriving Repr, DecidableEq

/-- The decoded audio stream: its description and the full sequence of signed
16-bit samples (carried as `Int`). -/
structure AudioStream where
  desc : AudioDesc
  samples : List Int
deriving Repr, DecidableEq

/-- The inputs of one invocation of `main`, with every external collaborator
made explicit: the argument list (`args()`, index 0 is the program name), the
directory enumeration (`none` when `read_dir` fails, `Err` entries as `none`
inside the list), whether `Model::load_from_files` succeeds on a path, whether
`Model::enable_external_scorer` succeeds on a path, the opened-and-decoded
audio stream (`none` when `File::open` or `Reader::new` fails), and the
engine's `speech_to_text` (`none` models a transcription failure). -/
structure World where
  argv : List String
  dir_entries : Option (List (Option DirEntry))
  model_load_ok : String → Bool
  scorer_attach_ok : String → Bool
  audio : Option AudioStream
  speech_to_text : List Int → Option String

/-- Panic message of line 178 (`expect`). -/
def errNoModelDir : String := "Please specify model dir"

/-- Panic message of line 181 (`expect`). -/
def errNoAudioFile : String := "Please specify an audio file to run STT on"

/-- Panic message of line 188 (`expect` on `read_dir`). -/
def errNotADir : String := "Specified model dir is not a dir"

/-- Panic of the `unwrap` on line 203 (`Model::load_from_files`). -/
def errModelLoad : String := "called unwrap on Model::load_from_files error"

/-- Panic of the `unwrap` on line 207 (`enable_external_scorer`). -/
def errScorerAttach : String := "called unwrap on enable_external_scorer error"

/-- Panic of the `unwrap`s on lines 210-211 (audio open / `Reader::new`). -/
def errAudioOpen : String := "called unwrap opening or reading the audio file"

/-- Message of the `assert_eq!` on lines 213-217. -/
def errChannelCount : String :=
  "The channel count is required to be one, at least for now"

/-- Panic of the `unwrap` on line 235 (`speech_to_text`). -/
def errSpeechToText : String := "called unwrap on speech_to_text error"

/-- The line printed on line 206 when an external scorer is found. -/
def scorerLine (p : String) : String :=
  "Using external scorer `" ++ p ++ "`"

/-- Lines 210-238 of `main`: open and decode the audio file, assert the
channel count is one, resample to `SAMPLE_RATE`, run `speech_to_text`, print
the result.  `printed` is the list of lines already printed to stdout; on
success the transcript is appended to it. -/
def runAudio (w : World) (printed : List String) :
    Except String (List String) :=
  match w.audio with
  | none => .error errAudioOpen
  | some stream =>
    if stream.desc.channel_count = 1 then
      match w.speech_to_text
          (resample stream.samples stream.desc.sample_rate SAMPLE_RATE) with
      | none => .error errSpeechToText
      | some result => .ok (printed ++ [result])
    else .error errChannelCount

/-- The whole of `main` (lines 176-239).  `Except.error msg` models a panic
(abnormal termination with a diagnostic); `Except.ok lines` models a run that
reaches the end, with `lines` the stdout lines in print order (exit code 0). -/
def mainRun (w : World) : Except String (List String) :=
  match w.argv[1]? with
  | none => .error errNoModelDir
  | some model_dir_str =>
    match w.argv[2]? with
    | none => .error errNoAudioFile
    | some _audio_file_path =>
      match w.dir_entries with
      | none => .error errNotADir
      | some entries =>
        if w.model_load_ok (locateModel model_dir_str entries).graph_name then
          match (locateModel model_dir_str entries).scorer_name with
          | some scorer =>
            if w.scorer_attach_ok scorer then
              runAudio w [scorerLine scorer]
            else .error errScorerAttach
          | none => runAudio w []
        else .error errModelLoad

/-- Stream of a two-channel (stereo) audio file at 44100 Hz. -/
def stereoStream : AudioStream := ⟨⟨2, 44100⟩, [1, 2, 3]⟩

/-- A run on a stereo audio file: valid arguments, a model directory holding
one `.pbmm` file, all external collaborators succeeding. -/
def wStereo : World :=
  ⟨["prog", "/models", "/audio.wav"],
    some [some ⟨"/models/model.pbmm", true, some ("pbmm")⟩],
    fun _ => true, fun _ => true,
    some stereoStream,
    fun _ => some ("hello")⟩

/-- A world with no command-line arguments beyond the program name. -/
def wNoArgs : World :=
  ⟨["prog"], none, fun _ => false, fun _ => false, none, fun _ => none⟩

/-- A run whose model directory holds one `.pbmm` model and one `.scorer`
file, with a mono 16000 Hz audio stream and all collaborators succeeding. -/
def wScorer : World :=
  ⟨["prog", "/models", "/audio.wav"],
    some [some ⟨"/models/model.pbmm", true, some ("pbmm")⟩,
      some ⟨"/models/lm.scorer", true, some ("scorer")⟩],
    fun _ => true, fun _ => true,
    some ⟨⟨1, 16000⟩, [0, 0]⟩,
    fun _ => some ("hello")⟩

/-- A run whose model directory holds only a `.pb` model (no scorer), with a
mono 16000 Hz audio stream and all collaborators succeeding. -/
def wPlain : World :=
  ⟨["prog", "/models", "/a.wav"],
    some [some ⟨"/models/output_graph.pb", true, some ("pb")⟩],
    fun _ => true, fun _ => true,
    some ⟨⟨1, 16000⟩, [7]⟩,
    fun _ => some ("hi")⟩

lemma scanStep_eq (sel : ModelSelection) (entry : Option DirEntry) :
    scanStep sel entry =
      ⟨(modelCandidate entry).getD sel.graph_name,
       (scorerCandidate entry).or sel.scorer_name⟩ := by
  match entry with
  | none => rfl
  | some f =>
    by_cases hf : f.isFile
    · match hext : f.ext with
      | none => simp [scanStep, modelCandidate, scorerCandidate, hf, hext]
      | some ext =>
        by_cases hm : isModelExt ext
        · simp [scanStep, modelCandidate, scorerCandidate, hf, hext, hm]
        · by_cases hs : ext = "scorer"
          · simp [scanStep, modelCandidate, scorerCandidate, hf, hext, hm, hs,
              isModelExt]
          · simp [scanStep, modelCandidate, scorerCandidate, hf, hext, hm, hs]
    · simp [scanStep, modelCandidate, scorerCandidate, hf]

lemma getLast?_cons_eq_or {α : Type} (a : α) (l : List α) :
    (a :: l).getLast? = l.getLast?.or (some a) := by
  cases l with
  | nil => rfl
  | cons b t => simp [List.getLast?, List.getLastD_cons]

lemma foldl_scanStep (entries : List (Option DirEntry)) (g : String)
    (s : Option String) :
    entries.foldl scanStep ⟨g, s⟩ =
      ⟨(entries.filterMap modelCandidate).getLastD g,
       (entries.filterMap scorerCandidate).getLast?.or s⟩ := by
  induction entries generalizing g s with
  | nil => rfl
  | cons e l ih =>
    rw [List.foldl_cons, scanStep_eq, ih, List.filterMap_cons, List.filterMap_cons]
    match hm : modelCandidate e, hs : scorerCandidate e with
    | none, none => rfl
    | none, some p =>
      simp only [Option.getD_none, Option.getD_some, Option.none_or,
        getLast?_cons_eq_or, Option.or_assoc, List.getLastD_cons]
    | some q, none =>
      simp only [Option.getD_none, Option.getD_some, Option.none_or,
        getLast?_cons_eq_or, Option.or_assoc, List.getLastD_cons]
    | some q, some p =>
      simp only [Option.getD_none, Option.getD_some, Option.none_or,
        getLast?_cons_eq_or, Option.or_assoc, List.getLastD_cons]

lemma length_linearResample (samples : List Int) (source_rate target_rate : Nat) :
    (linearResample samples source_rate target_rate).length =
      (samples.length * target_rate + source_rate - 1) / source_rate := by
  simp [linearResample]

lemma mem_range_mul_lt {j a b : Nat} (hj : j < (a + b - 1) / b) :
    j * b < a := by
  rcases Nat.eq_zero_or_pos b with hb | hb
  · subst hb; simp at hj
  · have h1 : j + 1 ≤ (a + b - 1) / b := hj
    have h2 : (j + 1) * b ≤ a + b - 1 := (Nat.le_div_iff_mul_le hb).mp h1
    have h3 : a + b - 1 = a + (b - 1) := by omega
    have h4 : j * b + b ≤ a + (b - 1) := by
      calc j * b + b = (j + 1) * b := by ring
        _ ≤ a + b - 1 := h2
        _ = a + (b - 1) := h3
    omega

lemma getD_replicate_of_lt {k : Int} {n i : Nat} (h : i < n) :
    (List.replicate n k).getD i 0 = k := by
  rw [List.getD_eq_getElem?_getD, List.getElem?_replicate, if_pos h]
  rfl

lemma ceil_le_round_add_one (a b : Nat) :
    (a + b - 1) / b ≤ (2 * a + b) / (2 * b) + 1 := by
  rcases Nat.eq_zero_or_pos b with hb | hb
  · subst hb; simp
  · have h1 : (a + b - 1) / b ≤ (a + b) / b := Nat.div_le_div_right (by omega)
    have h2 : (a + b) / b = a / b + 1 := Nat.add_div_right a hb
    have h3 : a / b = 2 * a / (2 * b) :=
      (Nat.mul_div_mul_left a b (by norm_num)).symm
    have h4 : 2 * a / (2 * b) ≤ (2 * a + b) / (2 * b) :=
      Nat.div_le_div_right (by omega)
    omega

lemma round_le_ceil_add_one (a b : Nat) :
    (2 * a + b) / (2 * b) ≤ (a + b - 1) / b + 1 := by
  rcases Nat.eq_zero_or_pos b with hb | hb
  · subst hb; simp
  · have h1 : (2 * a + b) / (2 * b) ≤ (2 * a + 2 * b) / (2 * b) :=
      Nat.div_le_div_right (by omega)
    have h2 : 2 * a + 2 * b = 2 * (a + b) := by ring
    rw [h2] at h1
    have h3 : 2 * (a + b) / (2 * b) = (a + b) / b :=
      Nat.mul_div_mul_left (a + b) b (by norm_num)
    have h4 : (a + b) / b = a / b + 1 := Nat.add_div_right a hb
    have h5 : a / b ≤ (a + b - 1) / b := Nat.div_le_div_right (by omega)
    omega

lemma runAudio_ok {w : World} {printed lines : List String}
    (h : runAudio w printed = .ok lines) :
    ∃ t, lines = printed ++ [t] := by
  unfold runAudio at h
  split at h
  · exact absurd h (by simp)
  · split at h
    · split at h
      · exact absurd h (by simp)
      · rename_i result heq
        simp only [Except.ok.injEq] at h
        exact ⟨result, h.symm⟩
    · exact absurd h (by simp)

/-- C1: when the decoded file's declared sample rate equals the target rate,
the resampling stage returns the sample sequence unchanged —
`resample S r r = S` (the passthrough branch of lines 220-222) — and the
sequence handed to the recognition engine is exactly the decoded sequence:
a mono stream already at `SAMPLE_RATE` makes the run consult
`speech_to_text` on `stream.samples` itself. -/
theorem resample_identity_passthrough :
    (∀ (samples : List Int) (r : Nat), resample samples r r = samples)
    ∧ ∀ (w : World) (stream : AudioStream) (printed : List String),
        w.audio = some stream →
        stream.desc.channel_count = 1 →
        stream.desc.sample_rate = SAMPLE_RATE →
        runAudio w printed =
          match w.speech_to_text stream.samples with
          | none => .error errSpeechToText
          | some result => .ok (printed ++ [result]) := by
  have hid : ∀ (samples : List Int) (r : Nat), resample samples r r = samples := by
    intro samples r
    simp [resample]
  refine ⟨hid, ?_⟩
  intro w stream printed h1 h2 h3
  unfold runAudio
  rw [h1]
  simp only [if_pos h2, h3, hid]

/-- Witness for C1: a mono 16000 Hz stream is handed to the engine unchanged,
and resampling a concrete list at equal rates is the identity. -/
theorem resample_identity_passthrough_witness :
    resample [1, 2, 3] 16000 16000 = [1, 2, 3]
    ∧ runAudio wPlain [] = .ok [("hi")] :=
  ⟨resample_identity_passthrough.1 [1, 2, 3] 16000,
    resample_identity_passthrough.2 wPlain ⟨⟨1, 16000⟩, [7]⟩ [] rfl rfl rfl⟩

/-- C2: resampling a constant sequence `[k, k, ...]` to the target rate from
any source rate different from 16000 Hz produces a constant sequence: the
output is exactly a replicate of `k` (linear interpolation of a constant is
the constant). -/
theorem resample_replicate_const (n : Nat) (k : Int) (source_rate : Nat)
    (h : source_rate ≠ SAMPLE_RATE) :
    resample (List.replicate n k) source_rate SAMPLE_RATE =
      List.replicate ((n * SAMPLE_RATE + source_rate - 1) / source_rate) k := by
  simp only [resample, if_neg h, linearResample, List.length_replicate]
  apply List.eq_replicate_iff.mpr
  refine ⟨by simp, ?_⟩
  intro b hb
  rw [List.mem_map] at hb
  obtain ⟨j, hj, rfl⟩ := hb
  rw [List.mem_range] at hj
  have hlt : j * source_rate < n * SAMPLE_RATE := mem_range_mul_lt hj
  have hi : j * source_rate / SAMPLE_RATE < n := by
    rw [Nat.div_lt_iff_lt_mul (by norm_num [SAMPLE_RATE])]
    exact hlt
  have hn : 0 < n := lt_of_le_of_lt (Nat.zero_le _) hi
  have hmin : min (j * source_rate / SAMPLE_RATE + 1) (n - 1) < n :=
    lt_of_le_of_lt (Nat.min_le_right _ _) (Nat.sub_lt hn (by norm_num))
  rw [getD_replicate_of_lt hi, getD_replicate_of_lt hmin]
  simp

/-- C3: for every sample sequence and every pair of source and (positive)
target rates, the resampled length is within one sample of
`round(len * target_rate / source_rate)`, the rounded quotient being computed
as `(2 * len * target + source) / (2 * source)`. -/
theorem resample_length_within_one (samples : List Int)
    (source_rate target_rate : Nat) (ht : 0 < target_rate) :
    (resample samples source_rate target_rate).length ≤
      (2 * (samples.length * target_rate) + source_rate) / (2 * source_rate) + 1
    ∧ (2 * (samples.length * target_rate) + source_rate) / (2 * source_rate) ≤
      (resample samples source_rate target_rate).length + 1 := by
  by_cases h : source_rate = target_rate
  · subst h
    have hlen : (resample samples source_rate source_rate).length =
        samples.length := by
      simp [resample]
    have h1 : 2 * (samples.length * source_rate) + source_rate =
        source_rate * (2 * samples.length + 1) := by ring
    have h2 : 2 * source_rate = source_rate * 2 := by ring
    rw [hlen, h1, h2, Nat.mul_div_mul_left _ _ ht]
    omega
  · simp only [resample, if_neg h, length_linearResample]
    exact ⟨ceil_le_round_add_one (samples.length * target_rate) source_rate,
      round_le_ceil_add_one (samples.length * target_rate) source_rate⟩

/-- Witness for C3: three samples at 8000 Hz resample to six samples, and the
rounded quotient is also six. -/
theorem resample_length_within_one_witness :
    0 < 16000
    ∧ ((resample [1, 2, 3] 8000 16000).length ≤
        (2 * (([1, 2, 3] : List Int).length * 16000) + 8000) / (2 * 8000) + 1
      ∧ (2 * (([1, 2, 3] : List Int).length * 16000) + 8000) / (2 * 8000) ≤
        (resample [1, 2, 3] 8000 16000).length + 1) :=
  ⟨by decide, resample_length_within_one [1, 2, 3] 8000 16000 (by decide)⟩

/-- Witness for C2 at a concrete input: three samples of value 5 at source
rate 8000 Hz resample to six samples of value 5. -/
theorem resample_replicate_const_witness :
    (8000 ≠ SAMPLE_RATE) ∧
      resample (List.replicate 3 (5 : Int)) 8000 SAMPLE_RATE =
        List.replicate ((3 * SAMPLE_RATE + 8000 - 1) / 8000) (5 : Int) :=
  ⟨by decide, resample_replicate_const 3 5 8000 (by decide)⟩

/-- C4: the Model Locator selects as acoustic model the last-encountered
regular file with extension `pb`, `pbmm` or `tflite` (falling back to the
joined `output_graph.pb` when there is none) and as scorer the
last-encountered regular file with extension `scorer`; in particular a
directory with exactly one `.pb` file and one `.scorer` file yields that pair
in every enumeration order. -/
theorem model_locator_last_wins (dirPath : String)
    (entries : List (Option DirEntry)) :
    (locateModel dirPath entries).graph_name =
      (entries.filterMap modelCandidate).getLastD
        (pathJoin dirPath ("output_graph.pb"))
    ∧ (locateModel dirPath entries).scorer_name =
      (entries.filterMap scorerCandidate).getLast? := by
  rw [locateModel, foldl_scanStep]
  exact ⟨rfl, Option.or_none⟩

/-- C5: when the enumeration contains no regular file with an acoustic-model
extension, the selected model path is the fallback `output_graph.pb` joined to
the directory path, and the scorer slot can only be filled by an encountered
`.scorer` file. -/
theorem model_locator_fallback (dirPath : String)
    (entries : List (Option DirEntry))
    (h : entries.filterMap modelCandidate = []) :
    (locateModel dirPath entries).graph_name =
      pathJoin dirPath ("output_graph.pb")
    ∧ ((locateModel dirPath entries).scorer_name.isSome →
        entries.filterMap scorerCandidate ≠ []) := by
  rw [locateModel, foldl_scanStep]
  refine ⟨by rw [h]; rfl, ?_⟩
  intro hs hempty
  rw [hempty] at hs
  simp at hs

/-- Witness for C5: a directory holding only a `.txt` file keeps the fallback
model path and an empty scorer slot. -/
theorem model_locator_fallback_witness :
    ([some ⟨"/m/readme.txt", true, some ("txt")⟩] :
        List (Option DirEntry)).filterMap modelCandidate = []
    ∧ ((locateModel ("/m")
          [some ⟨"/m/readme.txt", true, some ("txt")⟩]).graph_name =
        pathJoin ("/m") ("output_graph.pb")
      ∧ ((locateModel ("/m")
            [some ⟨"/m/readme.txt", true, some ("txt")⟩]).scorer_name.isSome →
          ([some ⟨"/m/readme.txt", true, some ("txt")⟩] :
              List (Option DirEntry)).filterMap scorerCandidate ≠ [])) :=
  ⟨by decide,
    model_locator_fallback ("/m")
      [some ⟨"/m/readme.txt", true, some ("txt")⟩] (by decide)⟩

/-- C9: extension classification is case-sensitive and exact: every regular
file whose extension differs from all four lowercase strings `pb`, `pbmm`,
`tflite` and `scorer` — uppercase and mixed-case variants included — leaves
the scan state unchanged, while the exact lowercase extensions are classified
into the model slot (`pb` / `pbmm` / `tflite`) or the scorer slot
(`scorer`). -/
theorem ext_case_sensitive :
    (∀ (sel : ModelSelection) (p ext : String),
        ext ≠ "pb" → ext ≠ "pbmm" → ext ≠ "tflite" → ext ≠ "scorer" →
        scanStep sel (some ⟨p, true, some ext⟩) = sel)
    ∧ ∀ (sel : ModelSelection) (p : String),
        (scanStep sel (some ⟨p, true, some ("pb")⟩)).graph_name = p
        ∧ (scanStep sel (some ⟨p, true, some ("pbmm")⟩)).graph_name = p
        ∧ (scanStep sel (some ⟨p, true, some ("tflite")⟩)).graph_name = p
        ∧ (scanStep sel (some ⟨p, true, some ("scorer")⟩)).scorer_name = some p := by
  constructor
  · intro sel p ext h1 h2 h3 h4
    simp [scanStep, isModelExt, h1, h2, h3, h4]
  · intro sel p
    refine ⟨?_, ?_, ?_, ?_⟩ <;> simp [scanStep, isModelExt]

/-- Witness for C9: the uppercase extension `PB` leaves a concrete selection
state untouched. -/
theorem ext_case_sensitive_witness :
    (("PB" : String) ≠ "pb" ∧ ("PB" : String) ≠ "pbmm"
      ∧ ("PB" : String) ≠ "tflite" ∧ ("PB" : String) ≠ "scorer")
    ∧ scanStep ⟨("g"), none⟩ (some ⟨("/m/x.PB"), true, some ("PB")⟩) =
        ⟨("g"), none⟩ :=
  ⟨⟨by decide, by decide, by decide, by decide⟩,
    ext_case_sensitive.1 ⟨("g"), none⟩ ("/m/x.PB") ("PB")
      (by decide) (by decide) (by decide) (by decide)⟩

/-- C6: a decoded audio stream whose declared channel count is not one makes
the run fail fatally with the channel-count assertion message; the resampler
and the recognition engine are never reached (`speech_to_text` is
unconstrained by every hypothesis, so the result is independent of it). -/
theorem channel_count_fatal (w : World) (d a : String)
    (es : List (Option DirEntry)) (stream : AudioStream)
    (h1 : w.argv[1]? = some d) (h2 : w.argv[2]? = some a)
    (h3 : w.dir_entries = some es)
    (h4 : w.model_load_ok (locateModel d es).graph_name = true)
    (h5 : ∀ p, (locateModel d es).scorer_name = some p →
      w.scorer_attach_ok p = true)
    (h6 : w.audio = some stream)
    (h7 : stream.desc.channel_count ≠ 1) :
    mainRun w = .error errChannelCount := by
  have hrun : ∀ printed, runAudio w printed = .error errChannelCount := by
    intro printed
    unfold runAudio
    rw [h6]
    simp only [if_neg h7]
  unfold mainRun
  rw [h1, h2, h3]
  simp only [if_pos h4]
  match hsc : (locateModel d es).scorer_name with
  | some scorer =>
    dsimp only
    rw [if_pos (h5 scorer hsc)]
    exact hrun _
  | none => exact hrun _

/-- Witness for C6: the stereo run aborts with the channel-count message. -/
theorem channel_count_fatal_witness :
    stereoStream.desc.channel_count ≠ 1
    ∧ mainRun wStereo = .error errChannelCount :=
  ⟨by decide,
    channel_count_fatal wStereo ("/models") ("/audio.wav") _ stereoStream
      rfl rfl rfl rfl (fun _ _ => rfl) rfl (by decide)⟩

/-- C7: an invocation with fewer than two positional arguments (the argument
list holds at most the program name and one more entry) terminates with one of
the two explanatory `expect` messages, whatever the rest of the world
contains: no directory scan, decode or transcription is attempted. -/
theorem missing_args_fatal (w : World) (h : w.argv.length < 3) :
    mainRun w = .error errNoModelDir
    ∨ mainRun w = .error errNoAudioFile := by
  match hv : w.argv[1]? with
  | none =>
    left
    unfold mainRun
    rw [hv]
  | some d =>
    right
    have h2 : w.argv[2]? = none := by
      rw [List.getElem?_eq_none_iff]
      omega
    unfold mainRun
    rw [hv, h2]

/-- Witness for C7: the argument-less run aborts with an argument message. -/
theorem missing_args_fatal_witness :
    wNoArgs.argv.length < 3
    ∧ (mainRun wNoArgs = .error errNoModelDir
      ∨ mainRun wNoArgs = .error errNoAudioFile) :=
  ⟨by decide, missing_args_fatal wNoArgs (by decide)⟩

/-- C8 counterexample: a successful run whose standard output is not a single
transcript string — when a scorer file is present, the scorer announcement is
printed before the transcript, so stdout has two lines, not one. -/
theorem single_transcript_counterexample :
    mainRun wScorer = .ok [scorerLine ("/models/lm.scorer"), ("hello")]
    ∧ ([scorerLine ("/models/lm.scorer"), ("hello")] : List String).length ≠ 1 :=
  ⟨rfl, by decide⟩

/-- C8 (amended): on every successful run the transcript is printed exactly
once as the final stdout line, preceded by at most one scorer-announcement
line; the run exits normally (exit code 0, modelled by `Except.ok`). -/
theorem transcript_structure (w : World) (lines : List String)
    (h : mainRun w = .ok lines) :
    ∃ t, lines = [t] ∨ ∃ p, lines = [scorerLine p, t] := by
  unfold mainRun at h
  split at h
  · exact absurd h (by simp)
  · split at h
    · exact absurd h (by simp)
    · split at h
      · exact absurd h (by simp)
      · split at h
        · split at h
          · rename_i scorer heq
            split at h
            · obtain ⟨t, ht⟩ := runAudio_ok h
              exact ⟨t, Or.inr ⟨scorer, by simpa using ht⟩⟩
            · exact absurd h (by simp)
          · obtain ⟨t, ht⟩ := runAudio_ok h
            exact ⟨t, Or.inl (by simpa using ht)⟩
        · exact absurd h (by simp)

/-- Witness for the amended C8: the scorer-less run prints exactly the
transcript. -/
theorem transcript_structure_witness :
    mainRun wPlain = .ok [("hi")]
    ∧ ∃ t, ([("hi")] : List String) = [t]
      ∨ ∃ p, ([("hi")] : List String) = [scorerLine p, t] :=
  ⟨rfl, transcript_structure wPlain [("hi")] rfl⟩

/-- C10: whenever the scan selects a scorer, a successful run prints the line
`Using external scorer <backtick>path<backtick>` before the transcript, so
stdout holds exactly two lines. -/
theorem scorer_line_printed (w : World) (lines : List String) (d : String)
    (es : List (Option DirEntry)) (p : String)
    (h1 : w.argv[1]? = some d)
    (h2 : w.dir_entries = some es)
    (h3 : (locateModel d es).scorer_name = some p)
    (h : mainRun w = .ok lines) :
    ∃ t, lines = [scorerLine p, t] := by
  unfold mainRun at h
  simp only [h1] at h
  cases hv2 : w.argv[2]? with
  | none =>
    simp only [hv2] at h
    exact absurd h (by simp)
  | some a =>
    simp only [hv2, h2] at h
    split at h
    · simp only [h3] at h
      split at h
      · obtain ⟨t, ht⟩ := runAudio_ok h
        exact ⟨t, by simpa using ht⟩
      · exact absurd h (by simp)
    · exact absurd h (by simp)

/-- Witness for C10: the scorer run prints the announcement line and then the
transcript. -/
theorem scorer_line_printed_witness :
    mainRun wScorer = .ok [scorerLine ("/models/lm.scorer"), ("hello")]
    ∧ ∃ t, ([scorerLine ("/models/lm.scorer"), ("hello")] : List String) =
        [scorerLine ("/models/lm.scorer"), t] :=
  ⟨rfl,
    scorer_line_printed wScorer
      [scorerLine ("/models/lm.scorer"), ("hello")] ("/models") _
      ("/models/lm.scorer") rfl rfl (by decide) rfl⟩

end HandyDeepspeech
